import Mathlib

/-!
Verification development for the transport core of the `hello-discord` bot
(gateway driver in `src/gateway.rs`, REST client in `src/http.rs`).

The definitions below are a shallow embedding of the Rust source:

* Pure computations (backoff formula, rate-limiter delay computation, the
  IDENTIFY/RESUME branch, close-code classification, sequence tracking,
  diagnostic-body truncation) are translated directly into Lean functions.
* Stateful loops (the REST `request` retry loop, the gateway driver's
  reconnect loop, the gateway send-budget gate) become explicit state-passing
  functions driven by an environment that supplies the outcome of each
  network operation.
* `std::time::Instant` is modelled as a number: natural-number ticks for the
  gateway send limiter (all comparisons there are integral), and `ℚ` seconds
  for the REST client (Discord's `Retry-After`/`Reset-After` values are
  fractional seconds parsed from `f64`; all arithmetic performed on them by
  the source is exact on the rationals used here).  `Instant` subtraction
  saturates at zero, hence truncated `Nat` subtraction in the `Nat` model.
* `HashMap` is modelled as an association list where `insert` prepends and
  `lookup` takes the first match.
* Byte strings are `List Nat`; the decoded text of a response body is a
  `List Char` whose UTF-8 byte length is computed with `Char.utf8Size`.
-/

set_option maxRecDepth 10000

namespace HelloDiscord

/-! ### Gateway data model (src/gateway.rs) -/

/-- `DEFAULT_GATEWAY_URL` from src/gateway.rs line 29. -/
def DEFAULT_GATEWAY_URL : String := "wss://gateway.discord.gg/?v=10&encoding=json"

/-- `SEND_BUDGET_MAX` from src/gateway.rs line 32: at most 120 gateway sends per window. -/
def SEND_BUDGET_MAX : Nat := 120

/-- `SEND_BUDGET_WINDOW` from src/gateway.rs line 33, in milliseconds (60 s). -/
def SEND_BUDGET_WINDOW : Nat := 60000

/-- `MAX_RECONNECT_ATTEMPTS` from src/gateway.rs line 36. -/
def MAX_RECONNECT_ATTEMPTS : Nat := 8

/-- `SessionState` from src/gateway.rs lines 130-138.  `sequence` is the
`last_sequence` of the specification. -/
structure SessionState where
  session_id : Option String
  resume_gateway_url : Option String
  sequence : Option Nat
deriving DecidableEq

/-- `GatewayConfig` from src/gateway.rs lines 117-124 (token, intents bitmask,
optional `[shard_id, num_shards]`). -/
structure GatewayConfig where
  token : String
  intents : Nat
  shard : Option (Nat × Nat)
deriving DecidableEq

/-- The authentication frame sent right after HELLO: either RESUME (op 6) or
IDENTIFY (op 2), as built by the `json!` blocks in src/gateway.rs
lines 283-328.  The fixed `properties` strings are omitted; the payload
fields the claims speak about (token, session id, seq, intents, shard) are
carried. -/
inductive AuthFrame where
  | resume (token : String) (session_id : String) (seq : Nat)
  | identify (token : String) (intents : Nat) (shard : Option (Nat × Nat))
deriving DecidableEq

/-- The `op` field of the frame: 6 for RESUME, 2 for IDENTIFY. -/
def AuthFrame.op : AuthFrame → Nat
  | .resume _ _ _ => 6
  | .identify _ _ _ => 2

/-- The IDENTIFY-or-RESUME branch of the gateway driver, src/gateway.rs
lines 278-328: `should_resume = session_id.is_some() && sequence.is_some()`;
if so send RESUME with the unwrapped session id and sequence, else IDENTIFY.
The `getD` defaults model `unwrap()`, which the guard makes unreachable. -/
def authPayload (config : GatewayConfig) (s : SessionState) : AuthFrame :=
  if s.session_id.isSome && s.sequence.isSome then
    .resume config.token (s.session_id.getD "") (s.sequence.getD 0)
  else
    .identify config.token config.intents config.shard

/-- Model of Rust `str::contains` used on the gateway URL: the pattern occurs
in `s` iff splitting on it yields more than one piece. -/
def containsStr (s pat : String) : Bool := (s.splitOn pat).length != 1

/-- URL selection and query-parameter fix-up at the top of each connection
attempt, src/gateway.rs lines 206-221. -/
def connectUrl (s : SessionState) : String :=
  let url := s.resume_gateway_url.getD DEFAULT_GATEWAY_URL
  if containsStr url "v=10" then url
  else if containsStr url "?" then url ++ "&v=10&encoding=json"
  else url ++ "?v=10&encoding=json"

/-- `DisconnectReason` from src/gateway.rs lines 444-450. -/
inductive DisconnectReason where
  | ShouldResume
  | ShouldReidentify
  | Fatal
  | EventChannelClosed
deriving DecidableEq

/-- Close-code policy of the read loop, src/gateway.rs lines 573-608:
4004/4010/4011/4012/4013/4014 are fatal, 4007/4009 force a re-identify,
everything else resumes. -/
def classifyClose (code : Nat) : DisconnectReason :=
  match code with
  | 4004 => .Fatal
  | 4010 => .Fatal
  | 4011 => .Fatal
  | 4012 => .Fatal
  | 4013 => .Fatal
  | 4014 => .Fatal
  | 4007 => .ShouldReidentify
  | 4009 => .ShouldReidentify
  | _ => .ShouldResume

/-- Outcome of an InvalidSession (op 9) frame, src/gateway.rs lines 545-555:
resumable ⇒ ShouldResume, not resumable ⇒ ShouldReidentify. -/
def invalidSessionReason (resumable : Bool) : DisconnectReason :=
  if resumable then .ShouldResume else .ShouldReidentify

/-- Session-state mutation performed when the driver handles
`ShouldReidentify`, src/gateway.rs lines 408-414: clear `session_id` and
`sequence`, keep `resume_gateway_url`. -/
def reidentifyClear (s : SessionState) : SessionState :=
  { s with session_id := none, sequence := none }

/-! ### Sequence tracking (src/gateway.rs read loop) -/

/-- Sequence update applied to each inbound frame, src/gateway.rs
lines 500-504: `if let Some(s) = payload.s { sess.sequence = Some(s) }`. -/
def updateSeq (cur : Option Nat) (frameSeq : Option Nat) : Option Nat :=
  match frameSeq with
  | some n => some n
  | none => cur

/-- Successive values of the driver's stored sequence while processing a list
of inbound frames (each frame abstracted to its optional `s` field), starting
from `cur`. -/
def seqStates (cur : Option Nat) (frames : List (Option Nat)) : List (Option Nat) :=
  frames.scanl updateSeq cur

/-- Order on optional sequence values: `none` precedes everything, numbers
compare as naturals. -/
def optLe : Option Nat → Option Nat → Bool
  | none, _ => true
  | some _, none => false
  | some a, some b => a ≤ b

/-- Executable chain predicate: `r` holds between each adjacent pair. -/
def chainB {α : Type} (r : α → α → Bool) : List α → Bool
  | [] => true
  | [_] => true
  | a :: b :: rest => r a b && chainB r (b :: rest)

/-! ### Gateway send rate limiter (src/gateway.rs lines 43-110) -/

/-- `SendRateLimiter` from src/gateway.rs lines 43-49; time is in
milliseconds. -/
structure SendRateLimiter where
  timestamps : List Nat
  budget : Nat
  window : Nat
deriving DecidableEq

/-- `SendRateLimiter::new`, src/gateway.rs lines 52-58. -/
def SendRateLimiter.new (budget window : Nat) : SendRateLimiter :=
  ⟨[], budget, window⟩

/-- `SendRateLimiter::delay`, src/gateway.rs lines 63-101: no wait while
fewer than `budget` timestamps are stored or fewer than `budget` lie inside
the window; otherwise wait until the oldest in-window timestamp leaves the
window. -/
def SendRateLimiter.delay (rl : SendRateLimiter) (now : Nat) : Option Nat :=
  if rl.timestamps.length < rl.budget then none
  else
    let inWindow := rl.timestamps.filter (fun t => now - t < rl.window)
    if inWindow.length < rl.budget then none
    else
      match inWindow.min? with
      | some oldest =>
        if oldest + rl.window > now then some (oldest + rl.window - now) else none
      | none => none

/-- `SendRateLimiter::record`, src/gateway.rs lines 104-109: drop timestamps
outside the window, then append the current instant. -/
def SendRateLimiter.record (rl : SendRateLimiter) (now : Nat) : SendRateLimiter :=
  { rl with timestamps := rl.timestamps.filter (fun t => now - t < rl.window) ++ [now] }

/-- Number of recorded timestamps lying within the window preceding `now`. -/
def countInWindow (rl : SendRateLimiter) (now : Nat) : Nat :=
  (rl.timestamps.filter (fun t => now - t < rl.window)).length

/-- One event of the send gate (`rate_limited_send`, src/gateway.rs
lines 657-692).  The delay check (lines 663-678) and the record
(lines 681-684) each hold the limiter mutex separately, so steps of
different tasks may interleave between a task's check and its record. -/
inductive GateEvent where
  | check (tid : Nat) (now : Nat)
  | record (tid : Nat) (now : Nat)
deriving DecidableEq

/-- State of the interleaved send gate: the shared limiter, the tasks that
have passed the delay check but not yet recorded, and the current time. -/
structure GateState where
  rl : SendRateLimiter
  passed : List Nat
  clock : Nat
deriving DecidableEq

/-- One step of the interleaved gate.  A `check` succeeds only when the
limiter currently imposes no delay (the task otherwise sleeps and re-checks,
which in a trace is simply a later `check`); a `record` is the matching
second half performed by a task that already passed its check.  Time never
decreases.  `none` marks an event impossible in the source. -/
def gateStep (st : GateState) (e : GateEvent) : Option GateState :=
  match e with
  | .check tid now =>
    if st.clock ≤ now ∧ st.rl.delay now = none ∧ tid ∉ st.passed then
      some { st with clock := now, passed := tid :: st.passed }
    else none
  | .record tid now =>
    if st.clock ≤ now ∧ tid ∈ st.passed then
      some { rl := st.rl.record now, passed := st.passed.erase tid, clock := now }
    else none

/-- Run a trace of gate events; `none` if the trace is not a possible
execution. -/
def gateExec (st : GateState) : List GateEvent → Option GateState
  | [] => some st
  | e :: es =>
    match gateStep st e with
    | some st' => gateExec st' es
    | none => none

/-- Initial gate state of a fresh connection (src/gateway.rs lines 254-257). -/
def gateInit : GateState :=
  ⟨SendRateLimiter.new SEND_BUDGET_MAX SEND_BUDGET_WINDOW, [], 0⟩

/-- A gate passage in which the delay check and the record are performed
atomically (no other gate step in between): exactly the source's
check-then-record pair, serialized. -/
def atomicPass (rl : SendRateLimiter) (now : Nat) : SendRateLimiter :=
  match rl.delay now with
  | none => rl.record now
  | some _ => rl

/-- Run serialized gate passages at the given (nondecreasing) instants. -/
def sendGateRun (ts : List Nat) : SendRateLimiter :=
  ts.foldl atomicPass (SendRateLimiter.new SEND_BUDGET_MAX SEND_BUDGET_WINDOW)

/-- The concrete interleaved trace used against the send-budget claim:
task 0 performs 119 complete check/record passages at instant 0, then both
task 0 and task 1 pass the delay check before either records. -/
def raceTrace : List GateEvent :=
  (List.replicate 119 [GateEvent.check 0 0, GateEvent.record 0 0]).flatten ++
    [GateEvent.check 0 0, GateEvent.check 1 0, GateEvent.record 1 0, GateEvent.record 0 0]

/-! ### Reconnect backoff (src/gateway.rs lines 694-699) -/

/-- `base_ms = 1000 * 2u64.saturating_pow(attempt.min(6))`; the exponent is
capped at 6, so the value is at most 64000 and never saturates. -/
def baseMs (attempt : Nat) : Nat := 1000 * 2 ^ (min attempt 6)

/-- The jitter factor `rand * 0.5 + 0.75` with `rand ∈ [0,1)` drawn from
`rand::random::<f64>()`. -/
def jitterFactor (r : ℚ) : ℚ := r * (1 / 2) + 3 / 4

/-- `backoff_delay` from src/gateway.rs lines 695-699, in milliseconds:
`jitter = (rand * 0.5 + 0.75) * base_ms`, then `jitter.min(60_000.0) as u64`
(cap applied AFTER the jitter multiplication, truncation toward zero). -/
def backoffDelayMs (attempt : Nat) (r : ℚ) : ℤ :=
  ⌊min (jitterFactor r * (baseMs attempt : ℚ)) 60000⌋

/-- Modelled from the spec: the claimed backoff formula
`min(60 s, base × 2^min(attempt, 6))` multiplied by the jitter factor — cap
applied BEFORE the jitter multiplication. -/
def specBackoffMs (attempt : Nat) (r : ℚ) : ℤ :=
  ⌊jitterFactor r * min ((baseMs attempt : ℚ)) 60000⌋

/-! ### Gateway driver reconnect loop (src/gateway.rs lines 197-437) -/

/-- Environment-visible outcome of one iteration of the driver loop:
the WebSocket dial fails (lines 232-247); the dial succeeds but reading
HELLO fails or times out (lines 262-270); the dial and HELLO succeed but
sending RESUME/IDENTIFY fails (lines 294-299 / 320-325); or the connection
runs and the read loop ends with a `DisconnectReason` (lines 403-423). -/
inductive AttemptEnv where
  | dialFail
  | helloFail
  | authSendFail
  | readEnd (r : DisconnectReason)
deriving DecidableEq

/-- Driver status after an iteration: still looping with the given
consecutive-failure counter, or returned. -/
inductive DriverStatus where
  | running (attempts : Nat)
  | terminated
deriving DecidableEq

/-- One iteration of the driver loop, tracking only the
`reconnect_attempts` counter.  A successful dial resets the counter to 0
(line 229) before any later failure in the same iteration increments it;
the `> MAX_RECONNECT_ATTEMPTS` termination check is performed only on the
dial-failure path (lines 234-238) and after the read loop
(lines 425-429) — the HELLO-failure and auth-send-failure paths increment
without checking (lines 266, 296, 322). -/
def driverStep (attempts : Nat) (o : AttemptEnv) : DriverStatus :=
  match o with
  | .dialFail =>
    let a := attempts + 1
    if a > MAX_RECONNECT_ATTEMPTS then .terminated else .running a
  | .helloFail => .running (0 + 1)
  | .authSendFail => .running (0 + 1)
  | .readEnd .Fatal => .terminated
  | .readEnd .EventChannelClosed => .terminated
  | .readEnd .ShouldResume =>
    let a := 0 + 1
    if a > MAX_RECONNECT_ATTEMPTS then .terminated else .running a
  | .readEnd .ShouldReidentify =>
    let a := 0 + 1
    if a > MAX_RECONNECT_ATTEMPTS then .terminated else .running a

/-- Run the driver loop against a list of iteration outcomes. -/
def driverRun (attempts : Nat) : List AttemptEnv → DriverStatus
  | [] => .running attempts
  | o :: os =>
    match driverStep attempts o with
    | .terminated => .terminated
    | .running a => driverRun a os

/-! ### REST client data model (src/http.rs) -/

/-- `RateLimitInfo` parsed from the response headers by
`parse_rate_limit_headers`, src/http.rs lines 114-143. -/
structure RateLimitInfo where
  remaining : Option Nat
  reset_at : Option ℚ
  reset_after : Option ℚ
  bucket : Option String
  is_global : Bool
deriving DecidableEq

/-- `BucketState` from src/http.rs lines 32-36. -/
structure BucketState where
  remaining : Nat
  resets_at : ℚ
deriving DecidableEq

/-- `RateLimiter` from src/http.rs lines 38-46 (maps as association lists,
newest binding first). -/
structure RateLimiter where
  route_buckets : List (String × String)
  buckets : List (String × BucketState)
  global_until : Option ℚ
deriving DecidableEq

/-- `RateLimiter::new`, src/http.rs lines 49-55. -/
def RateLimiter.new : RateLimiter := ⟨[], [], none⟩

/-- The per-route bucket part of `RateLimiter::delay_for`, src/http.rs
lines 68-78: unknown route or unknown bucket ⇒ no delay; otherwise wait
until `resets_at` when `remaining == 0` and the reset is in the future. -/
def RateLimiter.bucketDelay (rl : RateLimiter) (route_key : String) (now : ℚ) : Option ℚ :=
  match rl.route_buckets.lookup route_key with
  | none => none
  | some bucket_id =>
    match rl.buckets.lookup bucket_id with
    | none => none
    | some state =>
      if state.remaining = 0 ∧ now < state.resets_at then some (state.resets_at - now)
      else none

/-- `RateLimiter::delay_for`, src/http.rs lines 59-79: the global lockout is
checked first; when it is not in the future the bucket logic decides. -/
def RateLimiter.delay_for (rl : RateLimiter) (route_key : String) (now : ℚ) : Option ℚ :=
  match rl.global_until with
  | some u => if now < u then some (u - now) else rl.bucketDelay route_key now
  | none => rl.bucketDelay route_key now

/-- `RateLimiter::update`, src/http.rs lines 82-107: a global flag with a
`reset-after` header sets the global lockout; a bucket header learns the
route→bucket mapping and stores `{remaining (default 1), resets_at}` with
`reset-after` defaulting to one second. -/
def RateLimiter.update (rl : RateLimiter) (route_key : String) (info : RateLimitInfo)
    (now : ℚ) : RateLimiter :=
  let rl1 :=
    if info.is_global then
      match info.reset_after with
      | some reset_after => { rl with global_until := some (now + reset_after) }
      | none => rl
    else rl
  match info.bucket with
  | some bucket =>
    let reset_instant :=
      match info.reset_after with
      | some reset_after => now + reset_after
      | none => now + 1
    { rl1 with
      route_buckets := (route_key, bucket) :: rl1.route_buckets,
      buckets := (bucket, ⟨info.remaining.getD 1, reset_instant⟩) :: rl1.buckets }
  | none => rl1

/-- The pre-flight wait of `DiscordHttpClient::request`, src/http.rs
lines 234-246: consult the limiter once; if it returns a delay, sleep for
that delay capped at 60 s.  Returns the instant at which the request is
issued.  There is no re-consultation loop in the source. -/
def preflightNow (rl : RateLimiter) (route_key : String) (now : ℚ) : ℚ :=
  match rl.delay_for route_key now with
  | some d => now + min d 60
  | none => now

/-- The pre-flight wait duplicated inside
`DiscordHttpClient::send_message_with_file`, src/http.rs lines 374-386
(textually the same block as in `request`). -/
def filePreflightNow (rl : RateLimiter) (route_key : String) (now : ℚ) : ℚ :=
  match rl.delay_for route_key now with
  | some d => now + min d 60
  | none => now

/-- `HttpError` from src/http.rs lines 149-161.  The `Api` body is kept as
raw bytes (the source stores the lossy-decoded string, whose content no
claim inspects). -/
inductive HttpError where
  | Api (status : Nat) (body : List Nat) (route : String)
  | Transport (msg : String)
  | Serde (msg : String)
deriving DecidableEq

/-- UTF-8 bytes of a string, for the literal body of the budget-exhausted
`Api` error (src/http.rs line 314). -/
def stringBytes (s : String) : List Nat := s.toUTF8.toList.map (·.toNat)

/-- Environment-visible outcome of issuing one HTTP request: the transport
fails (`req.send()` error, src/http.rs line 258-261), or a response arrives
after `rtt` seconds carrying a status, rate-limit headers, and a body read
that itself may fail (src/http.rs lines 294-297). -/
inductive AttemptOutcome where
  | sendFailure (msg : String)
  | ok (rtt : ℚ) (status : Nat) (info : RateLimitInfo) (bytesResult : Except String (List Nat))

/-- Limiter/time state threaded through a REST call. -/
structure ReqState where
  limiter : RateLimiter
  now : ℚ
deriving DecidableEq

/-- Result of a REST call: final state, outcome, and the number of HTTP
requests actually issued. -/
structure ReqResult where
  state : ReqState
  result : Except HttpError (List Nat)
  attemptsMade : Nat

/-- `max_retries` from src/http.rs line 231. -/
def max_retries : Nat := 5

/-- The 429 branch of `request`, src/http.rs lines 272-291:
`retry_after = reset_after.unwrap_or(1.0)`, `delay = min(retry_after, 60)`,
and when the global flag is set the limiter's lockout becomes
`now + delay`.  Returns the updated limiter and the delay. -/
def handle429 (lim : RateLimiter) (info : RateLimitInfo) (now : ℚ) : RateLimiter × ℚ :=
  let retry_after := info.reset_after.getD 1
  let delay := min retry_after 60
  let lim' :=
    if info.is_global then { lim with global_until := some (now + delay) } else lim
  (lim', delay)

/-- `StatusCode::is_ok` of the beet framework: a 2xx status. -/
def is2xx (status : Nat) : Bool := 200 ≤ status && status < 300

/-- The tail of a loop iteration of `request` after the retry decision,
src/http.rs lines 294-309: read the body (`Transport` error on failure),
return the bytes on 2xx, otherwise an `Api` error carrying status, body and
route. -/
def finishResponse (route : String) (attempt : Nat) (st : ReqState)
    (status : Nat) (bytesResult : Except String (List Nat)) : ReqResult :=
  match bytesResult with
  | .error e => ⟨st, .error (.Transport e), attempt + 1⟩
  | .ok bs =>
    if is2xx status then ⟨st, .ok bs, attempt + 1⟩
    else ⟨st, .error (.Api status bs route), attempt + 1⟩

/-- The retry loop of `DiscordHttpClient::request`, src/http.rs
lines 231-316 (`for attempt in 0..=max_retries`), driven by an environment
giving the outcome of each issued request.  The fuel counts the remaining
loop iterations; exhausting it reproduces the post-loop `Api 429` return of
lines 312-316.  Each iteration: pre-flight wait, issue the request, update
the limiter from the headers regardless of status, then on a 429 compute
the delay, optionally set the global lockout, and retry while
`attempt < max_retries`; otherwise fall through to the body read. -/
def requestFrom (route : String) (env : Nat → AttemptOutcome) :
    Nat → Nat → ReqState → ReqResult
  | 0, attempt, st =>
    ⟨st, .error (.Api 429 (stringBytes "rate-limited after max retries") route), attempt⟩
  | fuel + 1, attempt, st =>
    let now1 := preflightNow st.limiter route st.now
    match env attempt with
    | .sendFailure msg => ⟨⟨st.limiter, now1⟩, .error (.Transport msg), attempt + 1⟩
    | .ok rtt status info bytesResult =>
      let now2 := now1 + rtt
      let lim2 := st.limiter.update route info now2
      if status = 429 then
        let h := handle429 lim2 info now2
        if attempt < max_retries then
          requestFrom route env fuel (attempt + 1) ⟨h.1, now2 + h.2⟩
        else
          finishResponse route attempt ⟨h.1, now2⟩ status bytesResult
      else
        finishResponse route attempt ⟨lim2, now2⟩ status bytesResult

/-- `DiscordHttpClient::request` on a fresh call: 1 initial attempt plus up
to `max_retries` retries. -/
def request (route : String) (env : Nat → AttemptOutcome) (lim : RateLimiter)
    (now : ℚ) : ReqResult :=
  requestFrom route env (max_retries + 1) 0 ⟨lim, now⟩

/-- `DiscordHttpClient::send_message_with_file`, src/http.rs lines 362-429,
restricted to its limiter-relevant behaviour: one pre-flight wait (the
duplicated block), a single request (multipart body construction elided —
it does not touch the limiter), one header-driven limiter update, then
classification.  There is no retry loop and no explicit global-lockout
store; the final JSON parse of the 2xx body is elided (the bytes are
returned). -/
def sendMessageWithFile (route : String) (outcome : AttemptOutcome)
    (lim : RateLimiter) (now : ℚ) : ReqResult :=
  let now1 := filePreflightNow lim route now
  match outcome with
  | .sendFailure msg => ⟨⟨lim, now1⟩, .error (.Transport msg), 1⟩
  | .ok rtt status info bytesResult =>
    let now2 := now1 + rtt
    let lim2 := lim.update route info now2
    match bytesResult with
    | .error e => ⟨⟨lim2, now2⟩, .error (.Transport e), 1⟩
    | .ok bs =>
      if is2xx status then ⟨⟨lim2, now2⟩, .ok bs, 1⟩
      else ⟨⟨lim2, now2⟩, .error (.Api status bs route), 1⟩

/-- An `AttemptOutcome` that is a well-read 429 response. -/
def is429Ok (o : AttemptOutcome) : Prop :=
  ∃ rtt info bs, o = .ok rtt 429 info (.ok bs)

/-! ### Diagnostic truncation in request_json (src/http.rs lines 328-331) -/

/-- UTF-8 byte length of a decoded string. -/
def utf8Len (l : List Char) : Nat := l.foldl (fun n c => n + c.utf8Size) 0

/-- Rust `&raw[..n]` on a `str`, at byte granularity: `some` prefix when `n`
bytes end exactly at a character boundary, `none` (a panic in Rust) when the
index falls inside a multi-byte character. -/
def sliceBytes : List Char → Nat → Option (List Char)
  | _, 0 => some []
  | [], _ + 1 => none
  | c :: cs, n + 1 =>
    if n + 1 < c.utf8Size then none
    else (sliceBytes cs (n + 1 - c.utf8Size)).map (c :: ·)

/-- The diagnostic truncation `&raw[..raw.len().min(200)]` of
`request_json`, src/http.rs line 330 (the same expression appears in
`send_message_with_file`, line 418), applied to the lossy-decoded body
`raw`.  For a body that is valid UTF-8, `String::from_utf8_lossy` is the
identity, so `raw` is exactly the decoded body. -/
def truncateDiag (raw : List Char) : Option (List Char) :=
  sliceBytes raw (min (utf8Len raw) 200)

/-- The concrete 2xx response body defeating the truncation: 199 ASCII
bytes followed by one two-byte character, so the string is 201 bytes long
and byte index 200 falls inside the final character. -/
def badBody : List Char := List.replicate 199 'a' ++ ['é']

/-! ### Helper lemmas -/

lemma optLe_refl (x : Option Nat) : optLe x x = true := by
  cases x <;> simp [optLe]

lemma chainB_cons_seqStates (x y : Option Nat) (l : List (Option Nat)) :
    chainB optLe (x :: seqStates y l) = (optLe x y && chainB optLe (seqStates y l)) := by
  cases l <;> simp [seqStates, List.scanl, chainB]

lemma seqStates_cons (cur f : Option Nat) (fs : List (Option Nat)) :
    seqStates cur (f :: fs) = cur :: seqStates (updateSeq cur f) fs := by
  simp [seqStates, List.scanl]

lemma chainB_cons₂ {α : Type} (r : α → α → Bool) (a b : α) (l : List α) :
    chainB r (a :: b :: l) = (r a b && chainB r (b :: l)) := rfl

lemma countInWindow_le_length (rl : SendRateLimiter) (now : Nat) :
    countInWindow rl now ≤ rl.timestamps.length :=
  List.length_filter_le _ _

lemma delay_none_count_lt (rl : SendRateLimiter) (now : Nat)
    (hb : 0 < rl.budget) (h : rl.delay now = none) :
    countInWindow rl now < rl.budget := by
  by_cases h1 : rl.timestamps.length < rl.budget
  · exact lt_of_le_of_lt (countInWindow_le_length rl now) h1
  · by_cases h2 : (rl.timestamps.filter (fun t => now - t < rl.window)).length < rl.budget
    · exact h2
    · exfalso
      simp only [SendRateLimiter.delay, if_neg h1, if_neg h2] at h
      cases hmin : (rl.timestamps.filter (fun t => now - t < rl.window)).min? with
      | none =>
        rw [List.min?_eq_none_iff.mp hmin] at h2
        simp at h2
        omega
      | some oldest =>
        have hmem : oldest ∈ rl.timestamps.filter (fun t => now - t < rl.window) :=
          List.min?_mem (fun a b => min_choice a b) hmin
        have hcond : now - oldest < rl.window := by
          have hf := (List.mem_filter.mp hmem).2
          simpa using hf
        have hgt : oldest + rl.window > now := by omega
        rw [hmin] at h
        simp [hgt] at h

lemma count_record (rl : SendRateLimiter) (now : Nat) (hw : 0 < rl.window) :
    countInWindow (rl.record now) now = countInWindow rl now + 1 := by
  unfold countInWindow SendRateLimiter.record
  rw [List.filter_append, List.filter_filter]
  simp [Nat.sub_self, hw]

lemma count_mono_time (rl : SendRateLimiter) (n T : Nat) (hnT : n ≤ T)
    (hts : ∀ t ∈ rl.timestamps, t ≤ n) :
    countInWindow rl T ≤ countInWindow rl n := by
  unfold countInWindow
  rw [← List.countP_eq_length_filter, ← List.countP_eq_length_filter]
  apply List.countP_mono_left
  intro t ht hp
  simp only [decide_eq_true_eq] at hp ⊢
  have := hts t ht
  omega

lemma atomicPass_budget (rl : SendRateLimiter) (now : Nat) :
    (atomicPass rl now).budget = rl.budget := by
  unfold atomicPass
  cases rl.delay now <;> simp [SendRateLimiter.record]

lemma atomicPass_window (rl : SendRateLimiter) (now : Nat) :
    (atomicPass rl now).window = rl.window := by
  unfold atomicPass
  cases rl.delay now <;> simp [SendRateLimiter.record]

lemma atomicPass_timestamps_le (rl : SendRateLimiter) (n now : Nat)
    (hn : n ≤ now) (hts : ∀ t ∈ rl.timestamps, t ≤ n) :
    ∀ t ∈ (atomicPass rl now).timestamps, t ≤ now := by
  unfold atomicPass
  cases rl.delay now with
  | none =>
    intro t ht
    simp only [SendRateLimiter.record, List.mem_append] at ht
    rcases ht with ht | ht
    · exact le_trans (hts t (List.mem_filter.mp ht).1) hn
    · simp at ht
      omega
  | some d =>
    intro t ht
    exact le_trans (hts t ht) hn

lemma atomicPass_count (rl : SendRateLimiter) (n now : Nat)
    (hb : 0 < rl.budget) (hw : 0 < rl.window) (hn : n ≤ now)
    (hts : ∀ t ∈ rl.timestamps, t ≤ n) (hc : countInWindow rl n ≤ rl.budget) :
    countInWindow (atomicPass rl now) now ≤ rl.budget := by
  unfold atomicPass
  cases hdel : rl.delay now with
  | none =>
    rw [count_record rl now hw]
    have := delay_none_count_lt rl now hb hdel
    omega
  | some d =>
    exact le_trans (count_mono_time rl n now hn hts) hc

lemma sendGate_fold_inv :
    ∀ (ts : List Nat) (rl : SendRateLimiter) (n : Nat),
      0 < rl.budget → 0 < rl.window →
      chainB Nat.ble (n :: ts) = true →
      (∀ t ∈ rl.timestamps, t ≤ n) →
      countInWindow rl n ≤ rl.budget →
      (ts.foldl atomicPass rl).budget = rl.budget ∧
      (ts.foldl atomicPass rl).window = rl.window ∧
      (∀ t ∈ (ts.foldl atomicPass rl).timestamps, t ≤ ts.getLastD n) ∧
      countInWindow (ts.foldl atomicPass rl) (ts.getLastD n) ≤ rl.budget := by
  intro ts
  induction ts with
  | nil =>
    intro rl n hb hw _ hts hc
    exact ⟨rfl, rfl, by simpa using hts, by simpa using hc⟩
  | cons t ts' ih =>
    intro rl n hb hw hchain hts hc
    obtain ⟨hble, hchain'⟩ := Bool.and_eq_true_iff.mp ((chainB_cons₂ Nat.ble n t ts') ▸ hchain)
    have hnt : n ≤ t := Nat.le_of_ble_eq_true hble
    have hb' : 0 < (atomicPass rl t).budget := by rw [atomicPass_budget]; exact hb
    have hw' : 0 < (atomicPass rl t).window := by rw [atomicPass_window]; exact hw
    have hts' : ∀ x ∈ (atomicPass rl t).timestamps, x ≤ t :=
      atomicPass_timestamps_le rl n t hnt hts
    have hc' : countInWindow (atomicPass rl t) t ≤ (atomicPass rl t).budget := by
      rw [atomicPass_budget]
      exact atomicPass_count rl n t hb hw hnt hts hc
    have hres := ih (atomicPass rl t) t hb' hw' hchain' hts' hc'
    rw [List.foldl_cons, List.getLastD_cons]
    refine ⟨?_, ?_, hres.2.2.1, ?_⟩
    · rw [hres.1, atomicPass_budget]
    · rw [hres.2.1, atomicPass_window]
    · have := hres.2.2.2
      rwa [atomicPass_budget] at this

lemma finishResponse_attempts (route : String) (attempt : Nat) (st : ReqState)
    (status : Nat) (b : Except String (List Nat)) :
    (finishResponse route attempt st status b).attemptsMade = attempt + 1 := by
  cases b with
  | error e => rfl
  | ok bs =>
    unfold finishResponse
    by_cases h : is2xx status = true
    · simp [h]
    · simp [h]

lemma requestFrom_attempts_le (route : String) (env : Nat → AttemptOutcome) :
    ∀ (fuel attempt : Nat) (st : ReqState),
      (requestFrom route env fuel attempt st).attemptsMade ≤ attempt + fuel := by
  intro fuel
  induction fuel with
  | zero => intro attempt st; simp [requestFrom]
  | succ f ih =>
    intro attempt st
    unfold requestFrom
    cases henv : env attempt with
    | sendFailure msg =>
      show attempt + 1 ≤ attempt + (f + 1)
      omega
    | ok rtt status info b =>
      simp only
      by_cases h429 : status = 429
      · rw [if_pos h429]
        by_cases hlt : attempt < max_retries
        · rw [if_pos hlt]
          have := ih (attempt + 1)
            ⟨(handle429 (st.limiter.update route info (preflightNow st.limiter route st.now + rtt)) info
                (preflightNow st.limiter route st.now + rtt)).1,
             preflightNow st.limiter route st.now + rtt +
              (handle429 (st.limiter.update route info (preflightNow st.limiter route st.now + rtt)) info
                (preflightNow st.limiter route st.now + rtt)).2⟩
          omega
        · rw [if_neg hlt, finishResponse_attempts]
          omega
      · rw [if_neg h429, finishResponse_attempts]
        omega

lemma requestFrom_all429 (route : String) (env : Nat → AttemptOutcome)
    (h : ∀ i, i ≤ max_retries → is429Ok (env i)) :
    ∀ (fuel attempt : Nat) (st : ReqState), 0 < fuel → attempt + fuel = max_retries + 1 →
      (∃ bs, (requestFrom route env fuel attempt st).result = .error (.Api 429 bs route)) ∧
      (requestFrom route env fuel attempt st).attemptsMade = max_retries + 1 := by
  intro fuel
  induction fuel with
  | zero => intro attempt st h0 _; omega
  | succ f ih =>
    intro attempt st _ hsum
    obtain ⟨rtt, info, bs, henv⟩ := h attempt (by omega)
    by_cases hlt : attempt < max_retries
    · have hf : 0 < f := by
        simp only [max_retries] at hsum hlt
        omega
      unfold requestFrom
      rw [henv]
      simp only [if_pos rfl, if_pos hlt]
      exact ih (attempt + 1) _ hf (by omega)
    · have hattempt : attempt = max_retries := by omega
      unfold requestFrom
      rw [henv]
      simp only [if_pos rfl, if_neg hlt]
      unfold finishResponse
      have h2xx : is2xx 429 = false := by decide
      rw [h2xx]
      exact ⟨⟨bs, by simp⟩, by simp; omega⟩

/-! ### Claim theorems -/

/-- Claim C1 (confirmed): at the start of a connection attempt the driver
sends RESUME (opcode 6, carrying token, session id and sequence) iff both
`session_id` and `last_sequence` are set in the session state; in every
other case it sends IDENTIFY (opcode 2). -/
theorem C1_resume_iff_session (config : GatewayConfig) (s : SessionState) :
    ((authPayload config s).op = 6 ↔ (s.session_id.isSome ∧ s.sequence.isSome)) ∧
    ((authPayload config s).op = 2 ↔ ¬(s.session_id.isSome ∧ s.sequence.isSome)) ∧
    (∀ sid sq, s.session_id = some sid → s.sequence = some sq →
      authPayload config s = .resume config.token sid sq) ∧
    (¬(s.session_id.isSome ∧ s.sequence.isSome) →
      authPayload config s = .identify config.token config.intents config.shard) := by
  obtain ⟨sid, url, sq⟩ := s
  cases sid <;> cases sq <;>
    simp [authPayload, AuthFrame.op]

/-- Witness for C1 at a concrete session: with `session_id = "S"` and
`sequence = 7` the frame is RESUME with exactly those fields. -/
theorem C1_resume_iff_session_witness :
    authPayload ⟨"t", 1, none⟩ ⟨some "S", none, some 7⟩ = .resume "t" "S" 7 :=
  (C1_resume_iff_session ⟨"t", 1, none⟩ ⟨some "S", none, some 7⟩).2.2.1 "S" 7 rfl rfl

/-- Claim C10 (confirmed): close codes 4007/4009 and InvalidSession(false)
produce the `ShouldReidentify` outcome, whose handling clears exactly
`session_id` and `last_sequence` and keeps `resume_gateway_url`, so the next
attempt dials the same URL but sends IDENTIFY (opcode 2) instead of RESUME. -/
theorem C10_reidentify_clears_session (config : GatewayConfig) (s : SessionState) :
    classifyClose 4007 = .ShouldReidentify ∧
    classifyClose 4009 = .ShouldReidentify ∧
    invalidSessionReason false = .ShouldReidentify ∧
    (reidentifyClear s).session_id = none ∧
    (reidentifyClear s).sequence = none ∧
    (reidentifyClear s).resume_gateway_url = s.resume_gateway_url ∧
    connectUrl (reidentifyClear s) = connectUrl s ∧
    (authPayload config (reidentifyClear s)).op = 2 := by
  refine ⟨rfl, rfl, rfl, rfl, rfl, rfl, ?_, rfl⟩
  simp [connectUrl, reidentifyClear]

/-- Counterexample to claim C7: after 8 consecutive failed dial attempts the
driver is still running (the source terminates only when the counter
exceeds `MAX_RECONNECT_ATTEMPTS = 8`, i.e. on the 9th consecutive dial
failure), and 100 consecutive HELLO failures never terminate it at all,
because the successful dial preceding each HELLO read resets the counter
to 0 before the failure increments it. -/
theorem C7_counterexample :
    driverRun 0 (List.replicate 8 .dialFail) = .running 8 ∧
    driverRun 0 (List.replicate 100 .helloFail) = .running 1 := by decide

/-- Claim C7 (corrected): the driver terminates via the attempt budget only
after 9 consecutive failed WebSocket dials; any nonempty sequence of
continuing failures that contains no dial failure (HELLO failures,
identify/resume send failures, resumable/reidentify disconnects) leaves the
driver running with the counter at 1, since each iteration's successful
dial resets the counter before the failure increments it. -/
theorem C7_amended :
    driverRun 0 (List.replicate 9 .dialFail) = .terminated ∧
    (∀ (n : Nat) (os : List AttemptEnv), os ≠ [] →
      (∀ o ∈ os, o = .helloFail ∨ o = .authSendFail ∨
        o = .readEnd .ShouldResume ∨ o = .readEnd .ShouldReidentify) →
      driverRun n os = .running 1) := by
  refine ⟨by decide, ?_⟩
  have aux : ∀ os : List AttemptEnv,
      (∀ o ∈ os, o = .helloFail ∨ o = .authSendFail ∨
        o = .readEnd .ShouldResume ∨ o = .readEnd .ShouldReidentify) →
      ∀ n, os ≠ [] → driverRun n os = .running 1 := by
    intro os
    induction os with
    | nil => intro _ n hne; exact absurd rfl hne
    | cons o rest ih =>
      intro h n _
      have hstep : driverStep n o = .running 1 := by
        rcases h o (List.mem_cons_self o rest) with rfl | rfl | rfl | rfl <;>
          simp [driverStep, MAX_RECONNECT_ATTEMPTS]
      cases rest with
      | nil => simp [driverRun, hstep]
      | cons o2 rest2 =>
        have hrun : driverRun n (o :: o2 :: rest2) = driverRun 1 (o2 :: rest2) := by
          simp [driverRun, hstep]
        rw [hrun]
        exact ih (fun x hx => h x (List.mem_cons_of_mem o hx)) 1 (by simp)
  intro n os hne h
  exact aux os h n hne

/-- Witness for C7: a single HELLO failure leaves the driver running with
counter 1, from any starting counter value. -/
theorem C7_amended_witness : driverRun 5 [.helloFail] = .running 1 :=
  C7_amended.2 5 [.helloFail] (by simp) (by simp)

/-- Counterexample to claim C8: with stored sequence 5, an inbound frame
carrying sequence 3 overwrites the stored value, which decreases from
`some 5` to `some 3` — the read loop (src/gateway.rs lines 500-504) imposes
no monotonicity. -/
theorem C8_counterexample :
    seqStates (some 5) [some 3] = [some 5, some 3] ∧
    chainB optLe (seqStates (some 5) [some 3]) = false := by decide

/-- Claim C8 (corrected): `last_sequence` is overwritten by every inbound
frame that carries a sequence number and left unchanged by frames that do
not; consequently the stored value never decreases provided the sequence
numbers carried by the inbound stream are themselves nondecreasing (and not
below the initially stored value). -/
theorem C8_amended (cur : Option Nat) (frames : List (Option Nat)) :
    (∀ (c : Option Nat) (n : Nat), updateSeq c (some n) = some n) ∧
    (∀ c : Option Nat, updateSeq c none = c) ∧
    (chainB optLe (cur :: (frames.filterMap id).map some) = true →
      chainB optLe (seqStates cur frames) = true) := by
  refine ⟨fun c n => rfl, fun c => rfl, ?_⟩
  induction frames generalizing cur with
  | nil => intro _; simp [seqStates, chainB]
  | cons f fs ih =>
    intro h
    cases f with
    | none =>
      rw [seqStates_cons, chainB_cons_seqStates]
      have h' : chainB optLe (cur :: (fs.filterMap id).map some) = true := by
        simpa using h
      simp [updateSeq, optLe_refl, ih cur h']
    | some n =>
      rw [seqStates_cons, chainB_cons_seqStates]
      have h' : (optLe cur (some n) && chainB optLe (some n :: (fs.filterMap id).map some)) = true := by
        simpa [chainB] using h
      obtain ⟨h1, h2⟩ := Bool.and_eq_true_iff.mp h'
      simp [updateSeq, h1, ih (some n) h2]

/-- Witness for C8: a nondecreasing inbound stream keeps the stored trace
nondecreasing. -/
theorem C8_amended_witness :
    chainB optLe (seqStates none [some 1, some 2]) = true :=
  (C8_amended none [some 1, some 2]).2.2 (by decide)

/-- Counterexample to claim C4: the delay check and the record of
`rate_limited_send` take the limiter lock separately, so two senders may
both pass the check while 119 timestamps are in the window and then both
record — the trace `raceTrace` is a valid interleaved execution of the gate
after which 121 timestamps lie inside the 60 s window, exceeding the budget
of 120. -/
theorem C4_counterexample :
    (gateExec gateInit raceTrace).map (fun st => countInWindow st.rl 0) = some 121 ∧
    SEND_BUDGET_MAX < 121 := by decide

/-- Claim C4 (corrected): when gate passages are serialized — each delay
check immediately followed by its record, with no other sender's check or
record interleaved between the two — the number of recorded send timestamps
inside the window never exceeds the budget of 120, at every instant from
the last passage onwards. -/
theorem C4_amended (ts : List Nat) (T : Nat)
    (hsorted : chainB Nat.ble ts = true)
    (hT : ∀ t ∈ ts, t ≤ T) :
    countInWindow (sendGateRun ts) T ≤ SEND_BUDGET_MAX := by
  have hchain0 : chainB Nat.ble (0 :: ts) = true := by
    cases ts with
    | nil => rfl
    | cons a l =>
      rw [chainB_cons₂]
      simpa using hsorted
  have hinv := sendGate_fold_inv ts (SendRateLimiter.new SEND_BUDGET_MAX SEND_BUDGET_WINDOW) 0
    (by decide) (by decide) hchain0
    (by simp [SendRateLimiter.new])
    (by simp [countInWindow, SendRateLimiter.new])
  obtain ⟨hbud, hwin, hts', hc'⟩ := hinv
  have hlast_le : ts.getLastD 0 ≤ T := by
    rcases List.mem_cons.mp (List.getLastD_mem_cons ts 0) with h | h
    · omega
    · exact hT _ h
  have hmono := count_mono_time (sendGateRun ts) (ts.getLastD 0) T hlast_le
    (by unfold sendGateRun; exact hts')
  calc countInWindow (sendGateRun ts) T
      ≤ countInWindow (sendGateRun ts) (ts.getLastD 0) := hmono
    _ ≤ SEND_BUDGET_MAX := by unfold sendGateRun; exact hc'

/-- Witness for C4: three serialized passages at instant 0 leave at most 120
timestamps in the window at instant 70000. -/
theorem C4_amended_witness :
    countInWindow (sendGateRun [0, 0, 0]) 70000 ≤ SEND_BUDGET_MAX :=
  C4_amended [0, 0, 0] 70000 (by decide) (by decide)

/-- Claim C2 (confirmed): every REST call through `request` issues at most
6 HTTP attempts (1 initial + 5 retries); if every attempt is answered with
a 429 the call returns `Api` with status 429 on the original route after
exactly 6 attempts; and the 429 handler computes
`delay = min(retry_after, 60)` with `retry_after` defaulting to 1 s, and,
when the global flag is set, stores `global_until = now + delay`. -/
theorem C2_429_policy (route : String) (env : Nat → AttemptOutcome)
    (lim : RateLimiter) (now : ℚ) :
    (request route env lim now).attemptsMade ≤ 6 ∧
    ((∀ i, i ≤ 5 → is429Ok (env i)) →
      (∃ bs, (request route env lim now).result = .error (.Api 429 bs route)) ∧
      (request route env lim now).attemptsMade = 6) ∧
    (∀ (lim2 : RateLimiter) (info : RateLimitInfo) (t : ℚ),
      (handle429 lim2 info t).2 = min (info.reset_after.getD 1) 60 ∧
      (info.is_global = true →
        (handle429 lim2 info t).1.global_until =
          some (t + min (info.reset_after.getD 1) 60))) := by
  refine ⟨?_, ?_, ?_⟩
  · exact requestFrom_attempts_le route env (max_retries + 1) 0 ⟨lim, now⟩
  · intro h
    exact requestFrom_all429 route env h (max_retries + 1) 0 ⟨lim, now⟩
      (by omega) (by omega)
  · intro lim2 info t
    refine ⟨rfl, fun hg => ?_⟩
    simp [handle429, hg]

/-- Witness for C2: with every attempt answered 429, the concrete call makes
exactly 6 attempts. -/
theorem C2_429_policy_witness :
    (request "r" (fun _ => AttemptOutcome.ok 0 429 ⟨none, none, none, none, false⟩ (.ok []))
      RateLimiter.new 0).attemptsMade = 6 :=
  ((C2_429_policy "r" (fun _ => AttemptOutcome.ok 0 429 ⟨none, none, none, none, false⟩ (.ok []))
      RateLimiter.new 0).2.1
    (fun _ _ => ⟨0, ⟨none, none, none, none, false⟩, [], rfl⟩)).2

/-- Counterexample to claim C3: with the limiter's global lockout 120 s in
the future, the pre-flight of `request` sleeps the capped 60 s once and then
issues the request, although re-consulting the limiter at that instant
would still return a 60 s delay — the source has no re-consultation loop
(one check per loop attempt, src/http.rs lines 234-246). -/
theorem C3_counterexample :
    preflightNow ⟨[], [], some 120⟩ "r" 0 = 60 ∧
    RateLimiter.delay_for ⟨[], [], some 120⟩ "r" 60 = some 60 := by
  constructor
  · simp [preflightNow, RateLimiter.delay_for, RateLimiter.bucketDelay, List.lookup]
    norm_num
  · simp [RateLimiter.delay_for, RateLimiter.bucketDelay, List.lookup]
    norm_num

/-- Claim C3 (corrected): the limiter returns a delay iff the global
lockout lies in the future or the route's learned bucket has
`remaining == 0` with `resets_at` in the future; the caller consults the
limiter once per attempt and, when a delay is returned, sleeps for it
capped at 60 s and then issues the request without re-consulting. -/
theorem C3_amended (rl : RateLimiter) (route : String) (now : ℚ) :
    (rl.delay_for route now ≠ none ↔
      ((∃ u, rl.global_until = some u ∧ now < u) ∨
        (∃ b bst, rl.route_buckets.lookup route = some b ∧
          rl.buckets.lookup b = some bst ∧
          bst.remaining = 0 ∧ now < bst.resets_at))) ∧
    (rl.delay_for route now = none → preflightNow rl route now = now) ∧
    (∀ d, rl.delay_for route now = some d →
      preflightNow rl route now = now + min d 60) := by
  refine ⟨?_, ?_, ?_⟩
  · unfold RateLimiter.delay_for RateLimiter.bucketDelay
    rcases hg : rl.global_until with _ | u
    · cases hb : rl.route_buckets.lookup route with
      | none => simp [hb]
      | some b =>
        cases hbs : rl.buckets.lookup b with
        | none => simp [hb, hbs]
        | some bst =>
          by_cases hcond : bst.remaining = 0 ∧ now < bst.resets_at
          · simp [hb, hbs, hcond]
          · simp [hb, hbs, hcond]
    · by_cases hu : now < u
      · simp [hu]
      · cases hb : rl.route_buckets.lookup route with
        | none => simp [hb, hu]
        | some b =>
          cases hbs : rl.buckets.lookup b with
          | none => simp [hb, hbs, hu]
          | some bst =>
            by_cases hcond : bst.remaining = 0 ∧ now < bst.resets_at
            · simp [hb, hbs, hcond, hu]
            · simp [hb, hbs, hcond, hu]
  · intro h
    simp [preflightNow, h]
  · intro d h
    simp [preflightNow, h]

/-- Witness for C3: at the concrete global-locked limiter the amended
theorem yields the single capped sleep. -/
theorem C3_amended_witness :
    preflightNow ⟨[], [], some 120⟩ "r" 0 = 0 + min 120 60 :=
  (C3_amended ⟨[], [], some 120⟩ "r" 0).2.2 120
    (by simp [RateLimiter.delay_for, RateLimiter.bucketDelay, List.lookup])

/-- Counterexample to claim C5: the rate-limit handling of
`send_message_with_file` is NOT identical to that of `request`.  On a
global 429 response with no `reset-after` header, `request` retries (6
attempts in total) and stores the global lockout (`now + delay`), while
`send_message_with_file` performs a single attempt, returns `Api 429`
immediately, and leaves the global lockout unset (it has no 429 branch at
all, src/http.rs lines 362-429). -/
theorem C5_counterexample :
    (request "r" (fun _ => .ok 0 429 ⟨none, none, none, none, true⟩ (.ok []))
      RateLimiter.new 0).attemptsMade = 6 ∧
    (request "r" (fun _ => .ok 0 429 ⟨none, none, none, none, true⟩ (.ok []))
      RateLimiter.new 0).state.limiter.global_until = some 6 ∧
    (sendMessageWithFile "r" (.ok 0 429 ⟨none, none, none, none, true⟩ (.ok []))
      RateLimiter.new 0).attemptsMade = 1 ∧
    (sendMessageWithFile "r" (.ok 0 429 ⟨none, none, none, none, true⟩ (.ok []))
      RateLimiter.new 0).state.limiter.global_until = none ∧
    (sendMessageWithFile "r" (.ok 0 429 ⟨none, none, none, none, true⟩ (.ok []))
      RateLimiter.new 0).result = .error (.Api 429 [] "r") := by
  norm_num [request, requestFrom, preflightNow, RateLimiter.delay_for, RateLimiter.bucketDelay,
    RateLimiter.update, handle429, finishResponse, is2xx, max_retries, RateLimiter.new,
    List.lookup, sendMessageWithFile, filePreflightNow]

/-- Claim C5 (corrected): `send_message_with_file` shares with `request` the
same single pre-flight wait (the duplicated block computes the same
instant) and, for every non-429 outcome, behaves exactly like a one-shot
`request` (same limiter update from the headers, same success and error
classification); but a 429 response is returned immediately as an `Api`
error after one attempt, with the limiter touched only by the header-driven
`update` — there is no retry and no explicit global-lockout store. -/
theorem C5_amended (route : String) (lim : RateLimiter) (now : ℚ) :
    (∀ (rl : RateLimiter) (rk : String) (t : ℚ),
      filePreflightNow rl rk t = preflightNow rl rk t) ∧
    (∀ msg, sendMessageWithFile route (.sendFailure msg) lim now =
      request route (fun _ => .sendFailure msg) lim now) ∧
    (∀ rtt status info b, status ≠ 429 →
      sendMessageWithFile route (.ok rtt status info b) lim now =
        request route (fun _ => .ok rtt status info b) lim now) ∧
    (∀ rtt info bs,
      sendMessageWithFile route (.ok rtt 429 info (.ok bs)) lim now =
        ⟨⟨lim.update route info (filePreflightNow lim route now + rtt),
           filePreflightNow lim route now + rtt⟩,
         .error (.Api 429 bs route), 1⟩) := by
  refine ⟨fun rl rk t => rfl, fun msg => rfl, ?_, ?_⟩
  · intro rtt status info b h
    simp [sendMessageWithFile, request, requestFrom, finishResponse, h,
      filePreflightNow, preflightNow]
  · intro rtt info bs
    norm_num [sendMessageWithFile, is2xx]

/-- Witness for C5: a one-shot 200 response is handled identically by the
file path and by `request`. -/
theorem C5_amended_witness :
    sendMessageWithFile "r" (.ok 0 200 ⟨none, none, none, none, false⟩ (.ok []))
      RateLimiter.new 0 =
      request "r" (fun _ => .ok 0 200 ⟨none, none, none, none, false⟩ (.ok []))
        RateLimiter.new 0 :=
  (C5_amended "r" RateLimiter.new 0).2.2.1 0 200 ⟨none, none, none, none, false⟩
    (.ok []) (by norm_num)

/-- Counterexample to claim C6: at attempt 6 with the jitter draw 0 (jitter
factor 0.75), the source computes `min(0.75 × 64000, 60000) = 48000 ms`,
while the claimed formula (cap before the jitter multiplication) gives
`0.75 × min(64000, 60000) = 45000 ms`. -/
theorem C6_counterexample :
    backoffDelayMs 6 0 = 48000 ∧ specBackoffMs 6 0 = 45000 ∧
    backoffDelayMs 6 0 ≠ specBackoffMs 6 0 := by
  refine ⟨?_, ?_, ?_⟩ <;>
    norm_num [backoffDelayMs, specBackoffMs, jitterFactor, baseMs]

/-- Claim C6 (corrected): the back-off delay is
`min(60 s, jitter × 1 s × 2^min(k, 6))` — the 60 s cap is applied AFTER the
jitter multiplication.  Consequently the delay never exceeds 60 s, for
attempts up to 5 the cap has no effect, and from attempt 6 on the delay no
longer depends on the attempt number. -/
theorem C6_amended (k : Nat) (r : ℚ) (h0 : 0 ≤ r) (h1 : r < 1) :
    backoffDelayMs k r ≤ 60000 ∧
    (k ≤ 5 → backoffDelayMs k r = ⌊jitterFactor r * (baseMs k : ℚ)⌋) ∧
    (6 ≤ k → backoffDelayMs k r = backoffDelayMs 6 r) := by
  refine ⟨?_, ?_, ?_⟩
  · calc backoffDelayMs k r ≤ ⌊(60000 : ℚ)⌋ :=
          Int.floor_le_floor (min_le_right _ _)
      _ = 60000 := by norm_num
  · intro hk
    have hbase : (baseMs k : ℚ) ≤ 32000 := by
      unfold baseMs
      have : min k 6 ≤ 5 := by omega
      have hpow : (2 : ℕ) ^ min k 6 ≤ 2 ^ 5 := Nat.pow_le_pow_right (by norm_num) this
      have : 1000 * 2 ^ min k 6 ≤ 32000 := by omega
      exact_mod_cast this
    have hjf : jitterFactor r < 5 / 4 := by
      unfold jitterFactor
      linarith
    have hjf0 : 0 ≤ jitterFactor r := by
      unfold jitterFactor
      linarith
    have hprod : jitterFactor r * (baseMs k : ℚ) ≤ 60000 := by
      have hb0 : (0 : ℚ) ≤ (baseMs k : ℚ) := by positivity
      calc jitterFactor r * (baseMs k : ℚ) ≤ (5 / 4) * 32000 := by
            apply mul_le_mul (le_of_lt hjf) hbase hb0
            norm_num
        _ ≤ 60000 := by norm_num
    unfold backoffDelayMs
    rw [min_eq_left hprod]
  · intro hk
    have hmin : min k 6 = 6 := by omega
    unfold backoffDelayMs baseMs
    rw [hmin]
    norm_num

/-- Witness for C6: at attempt 3 with jitter draw 1/2 the delay is at most
60 s. -/
theorem C6_amended_witness : backoffDelayMs 3 (1 / 2) ≤ 60000 :=
  (C6_amended 3 (1 / 2) (by norm_num) (by norm_num)).1

/-- Claim C9 (code bug): the 200-byte diagnostic truncation of
`request_json` slices the lossy-decoded body at byte index
`min(len, 200)`; on the valid-UTF-8 body of 199 `'a'`s followed by the
two-byte character `'é'` the string is 201 bytes long, index 200 falls
inside the final character, and the slice panics (`none`) instead of
producing a `SerdeError` — the error path is not total.  Index 199 would
have been a valid boundary. -/
theorem C9_truncation_panics :
    utf8Len badBody = 201 ∧
    min (utf8Len badBody) 200 = 200 ∧
    truncateDiag badBody = none ∧
    (sliceBytes badBody 199).isSome = true := by decide

end HelloDiscord
